import Mathlib

/-!
Verification development for the usb_enumeration crate.

The Rust sources are embedded shallowly:
* `src/common.rs`: `UsbDevice`, `DeviceBaseClass` (with its `TryFromPrimitive`
  conversion from a raw `u8`).
* `src/lib.rs`: the `Filters` impl for `Vec<USBDevice>`, `Observer` (builder +
  `enumerate`) and the event-emitting worker loop of `Observer::subscribe`.
  The worker's interaction with the OS is modelled by passing the sequence of
  platform-enumeration results as an explicit argument; the unbounded channel
  is modelled as the list of events sent into it.  `HashSet` iteration order is
  unspecified in Rust; the model fixes first-occurrence order (`List.dedup`),
  and every theorem proved about emission is insensitive to the order chosen
  within the disconnect group and within the connect group.
* `src/linux.rs`: `enumerate_platform` and `get_pid_or_vid`.  A udev device is
  modelled by its six queried properties; `property_value` returning
  `Option<&OsStr>` followed by `to_str() : Option<&str>` is modelled as
  `Option (Option String)` (absent / present-but-not-UTF-8 / value).
-/

/-- Device class codes from `src/common.rs` (`#[repr(u8)]`, `TryFromPrimitive`). -/
inductive DeviceBaseClass where
  | UseClassCodeFromInterfaceDescriptors
  | Audio
  | Communication
  | HumanInterfaceDevice
  | Physical
  | Image
  | Printer
  | MassStorage
  | Hub
  | CDCData
  | SmartCard
  | ContentSecurity
  | Video
  | PersonalHealthCare
  | AudioVideo
  | Billboard
  | UsbTypeCBridge
  | UsbBulkDisplay
  | MctpOverUsb
  | I3C
  | Diagnostic
  | WirelessController
  | Miscellaneous
  | ApplicationSpecific
  | VendorSpecific
  deriving DecidableEq

/-- Discriminant values assigned in the `enum DeviceBaseClass` declaration. -/
def DeviceBaseClass.discriminant : DeviceBaseClass → Nat
  | .UseClassCodeFromInterfaceDescriptors => 0x00
  | .Audio => 0x01
  | .Communication => 0x02
  | .HumanInterfaceDevice => 0x03
  | .Physical => 0x05
  | .Image => 0x06
  | .Printer => 0x07
  | .MassStorage => 0x08
  | .Hub => 0x09
  | .CDCData => 0x0A
  | .SmartCard => 0x0B
  | .ContentSecurity => 0x0D
  | .Video => 0x0E
  | .PersonalHealthCare => 0x0F
  | .AudioVideo => 0x10
  | .Billboard => 0x11
  | .UsbTypeCBridge => 0x12
  | .UsbBulkDisplay => 0x13
  | .MctpOverUsb => 0x14
  | .I3C => 0x3C
  | .Diagnostic => 0xDC
  | .WirelessController => 0xE0
  | .Miscellaneous => 0xEF
  | .ApplicationSpecific => 0xFE
  | .VendorSpecific => 0xFF

/-- List of all raw byte values that name a variant of `DeviceBaseClass`. -/
def knownClassCodes : List Nat :=
  [0x00, 0x01, 0x02, 0x03, 0x05, 0x06, 0x07, 0x08, 0x09, 0x0A, 0x0B, 0x0D,
   0x0E, 0x0F, 0x10, 0x11, 0x12, 0x13, 0x14, 0x3C, 0xDC, 0xE0, 0xEF, 0xFE, 0xFF]

/-- The `TryFromPrimitive` conversion derived for `DeviceBaseClass`: a raw `u8`
maps to the variant with that discriminant, and any other byte is an error
(`none`). -/
def DeviceBaseClass.tryFromPrimitive (n : Fin 256) : Option DeviceBaseClass :=
  match n.val with
  | 0x00 => some .UseClassCodeFromInterfaceDescriptors
  | 0x01 => some .Audio
  | 0x02 => some .Communication
  | 0x03 => some .HumanInterfaceDevice
  | 0x05 => some .Physical
  | 0x06 => some .Image
  | 0x07 => some .Printer
  | 0x08 => some .MassStorage
  | 0x09 => some .Hub
  | 0x0A => some .CDCData
  | 0x0B => some .SmartCard
  | 0x0D => some .ContentSecurity
  | 0x0E => some .Video
  | 0x0F => some .PersonalHealthCare
  | 0x10 => some .AudioVideo
  | 0x11 => some .Billboard
  | 0x12 => some .UsbTypeCBridge
  | 0x13 => some .UsbBulkDisplay
  | 0x14 => some .MctpOverUsb
  | 0x3C => some .I3C
  | 0xDC => some .Diagnostic
  | 0xE0 => some .WirelessController
  | 0xEF => some .Miscellaneous
  | 0xFE => some .ApplicationSpecific
  | 0xFF => some .VendorSpecific
  | _ => none

/-- The `UsbDevice` struct of `src/common.rs`.  `u16` fields are modelled as
`Nat` (no arithmetic is performed on them, only equality).  Equality is the
derived structural equality (`#[derive(PartialEq, Eq)]`). -/
structure UsbDevice where
  id : String
  vendor_id : Nat
  product_id : Nat
  description : Option String
  serial_number : Option String
  base_class : DeviceBaseClass
  deriving DecidableEq

/-- The `Event` enum of `src/lib.rs`. -/
inductive Event where
  | Initial : List UsbDevice → Event
  | Connect : UsbDevice → Event
  | Disconnect : UsbDevice → Event
  deriving DecidableEq

/-- Tests whether an event is the `Initial` variant. -/
def Event.isInitial : Event → Bool
  | .Initial _ => true
  | _ => false

/-- The `Observer` struct of `src/lib.rs`: poll interval in seconds plus the
two optional filters. -/
structure Observer where
  poll_interval : Nat
  vendor_id : Option Nat
  product_id : Option Nat
  deriving DecidableEq

/-- `Observer::new(poll_interval)` from `src/lib.rs`: records the caller's
poll interval and starts with both filters unset. -/
def Observer.new (poll_interval : Nat) : Observer :=
  { poll_interval := poll_interval, vendor_id := none, product_id := none }

/-- `Observer::with_vendor_id`. -/
def Observer.with_vendor_id (o : Observer) (vendor_id : Nat) : Observer :=
  { o with vendor_id := some vendor_id }

/-- `Observer::with_product_id`. -/
def Observer.with_product_id (o : Observer) (product_id : Nat) : Observer :=
  { o with product_id := some product_id }

/-- `Filters::with_vendor_id` for `Vec<USBDevice>` in `src/lib.rs`. -/
def withVendorId (devices : List UsbDevice) (vendor_id : Nat) : List UsbDevice :=
  devices.filter fun d => d.vendor_id == vendor_id

/-- `Filters::with_product_id` for `Vec<USBDevice>` in `src/lib.rs`. -/
def withProductId (devices : List UsbDevice) (product_id : Nat) : List UsbDevice :=
  devices.filter fun d => d.product_id == product_id

/-- `Observer::enumerate` from `src/lib.rs`.  The crate-level `enumerate()`
call (the raw OS snapshot) is passed in as `devices`; the observer then
applies its vendor filter, if set, followed by its product filter, if set. -/
def Observer.enumerate (o : Observer) (devices : List UsbDevice) : List UsbDevice :=
  let devices :=
    match o.vendor_id with
    | some vendor_id => withVendorId devices vendor_id
    | none => devices
  match o.product_id with
  | some product_id => withProductId devices product_id
  | none => devices

/-- Events sent during one pass of the diff-emit section of the worker loop in
`Observer::subscribe` (`src/lib.rs`): a `Disconnect` for every element of the
old set absent from the new set, then a `Connect` for every element of the new
set absent from the old set.  `old` and `new` stand for the two `HashSet`s,
listed in some iteration order. -/
def tickEvents (old new : List UsbDevice) : List Event :=
  (old.filter fun d => decide (d ∉ new)).map Event.Disconnect ++
  (new.filter fun d => decide (d ∉ old)).map Event.Connect

/-- Events sent by the worker loop after the initial snapshot, given the list
of populations returned by the successive platform enumerations.  Each `Vec`
returned by `enumerate` is converted to a `HashSet`, modelled by `dedup`. -/
def workerAfter : List UsbDevice → List (List UsbDevice) → List Event
  | _, [] => []
  | old, n :: rest => tickEvents old n.dedup ++ workerAfter n.dedup rest

/-- The full event stream sent by the worker thread spawned in
`Observer::subscribe`, given the successive platform-enumeration results
(first element = the initial enumeration).  The `Initial` event carries the
raw `Vec` before the `HashSet` conversion. -/
def workerEvents : List (List UsbDevice) → List Event
  | [] => []
  | first :: rest => Event.Initial first :: workerAfter first.dedup rest

/-- The per-tick event groups, in tick order: element `N` is the list of
events the worker emits during tick `N`. -/
def tickSegments : List UsbDevice → List (List UsbDevice) → List (List Event)
  | _, [] => []
  | old, n :: rest => tickEvents old n.dedup :: tickSegments n.dedup rest

/-- The cancellation-check wait loop at the top of the worker loop body:
`while wait_seconds > 0 { if rx_close disconnected { return } ; wait_seconds -= 1 }`.
`cancelled` says whether `tx_close` has been dropped (once dropped, the
channel stays disconnected, so a single Bool is faithful).  The result is the
number of `recv_timeout` checks performed and whether the worker returned
during the wait. -/
def waitLoop (cancelled : Bool) : Nat → Nat × Bool
  | 0 => (0, false)
  | n + 1 =>
    if cancelled then (1, true)
    else
      let r := waitLoop cancelled n
      (r.1 + 1, r.2)

/-- Outcome of one iteration of the worker loop body. -/
inductive TickOutcome where
  | terminated : TickOutcome
  | emitted : List Event → List UsbDevice → TickOutcome
  deriving DecidableEq

/-- One iteration of the worker loop body in `Observer::subscribe`: run the
wait loop for `interval` increments; if it observed cancellation the worker
returns, otherwise the worker re-enumerates (result `newEnum`), emits the diff
events and replaces the stored population. -/
def runTick (cancelled : Bool) (interval : Nat) (old newEnum : List UsbDevice) :
    TickOutcome :=
  if (waitLoop cancelled interval).2 then .terminated
  else .emitted (tickEvents old newEnum.dedup) newEnum.dedup

/-- A udev device record as queried by `enumerate_platform` in `src/linux.rs`:
each field is one property; `none` = property absent, `some none` = present
but not valid UTF-8, `some (some s)` = decoded value `s`. -/
structure UdevDevice where
  id_vendor_id : Option (Option String)
  id_model_id : Option (Option String)
  devpath : Option (Option String)
  id_model_from_database : Option (Option String)
  id_model : Option (Option String)
  id_serial_short : Option (Option String)
  deriving DecidableEq

/-- The device record pushed by `enumerate_platform` in `src/linux.rs` (this
file predates the `base_class` field of `common.rs`: the struct literal there
sets exactly these five fields). -/
structure LinuxUsbDevice where
  id : String
  vendor_id : Nat
  product_id : Nat
  description : Option String
  serial_number : Option String
  deriving DecidableEq

/-- Value of a hex digit character, or `none` when the character is not a hex
digit (the digit set accepted by `from_str_radix(_, 16)`). -/
def hexDigit (c : Char) : Option Nat :=
  if '0' ≤ c ∧ c ≤ '9' then some (c.toNat - 48)
  else if 'a' ≤ c ∧ c ≤ 'f' then some (c.toNat - 87)
  else if 'A' ≤ c ∧ c ≤ 'F' then some (c.toNat - 55)
  else none

/-- Digit-accumulation loop of `u16::from_str_radix(s, 16)`: fails on a
non-digit character and on overflow past the `u16` range. -/
def parseHexDigits : List Char → Nat → Option Nat
  | [], acc => some acc
  | c :: cs, acc =>
    match hexDigit c with
    | none => none
    | some d =>
      let v := acc * 16 + d
      if v < 65536 then parseHexDigits cs v else none

/-- `u16::from_str_radix(cs, 16)` on a character list: an optional leading
`+`, then a non-empty run of hex digits, with overflow checked against the
`u16` range; any other input is an error (`none`). -/
def fromStrRadix16 (cs0 : List Char) : Option Nat :=
  let cs :=
    match cs0 with
    | '+' :: rest => rest
    | cs => cs
  match cs with
  | [] => none
  | _ => parseHexDigits cs 0

/-- `get_pid_or_vid` from `src/linux.rs`: strip a `0x` prefix when present,
then parse as a base-16 `u16` (the string is handled as its character
list). -/
def get_pid_or_vid (id : String) : Option Nat :=
  match id.toList with
  | '0' :: 'x' :: rest => fromStrRadix16 rest
  | cs => fromStrRadix16 cs

/-- Vendor/product filter check inside the per-device closure of
`enumerate_platform`: `if let Some(v) = filter { if v != value { return Ok(()) } }`.
`true` means the device passes. -/
def filterOk : Option Nat → Nat → Bool
  | none, _ => true
  | some v, value => v == value

/-- Description lookup in `enumerate_platform`: `ID_MODEL_FROM_DATABASE`
when present and valid UTF-8, else `ID_MODEL`; either may be absent, the
description being optional. -/
def udevDescription (dev : UdevDevice) : Option String :=
  dev.id_model_from_database.join.orElse fun _ => dev.id_model.join

/-- The per-device closure of `enumerate_platform` in `src/linux.rs`.  `none`
means the closure pushed nothing for this record — a `ParseError` on a
required property (absent or non-UTF-8 or malformed hex) or a filter
mismatch; in every case the loop just moves to the next record. -/
def parseDevice (vid pid : Option Nat) (dev : UdevDevice) : Option LinuxUsbDevice :=
  dev.id_vendor_id.join.bind fun vendorStr =>
  (get_pid_or_vid vendorStr).bind fun vendor_id =>
  if filterOk vid vendor_id then
    dev.id_model_id.join.bind fun modelStr =>
    (get_pid_or_vid modelStr).bind fun product_id =>
    if filterOk pid product_id then
      dev.devpath.join.bind fun id =>
      dev.id_serial_short.join.bind fun serial =>
      some { id := id, vendor_id := vendor_id, product_id := product_id,
             description := udevDescription dev, serial_number := some serial }
    else none
  else none

/-- `enumerate_platform` from `src/linux.rs`: scan the udev records in order,
pushing the successfully parsed, filter-passing devices. -/
def enumerate_platform (vid pid : Option Nat) (devs : List UdevDevice) :
    List LinuxUsbDevice :=
  devs.filterMap (parseDevice vid pid)

/-- Concrete device used by witnesses and counterexamples. -/
def devW1 : UsbDevice :=
  { id := "usb-1", vendor_id := 0x1234, product_id := 0x5678,
    description := none, serial_number := none, base_class := .Hub }

/-- Second concrete device, distinct from `devW1` in every identifying field. -/
def devW2 : UsbDevice :=
  { id := "usb-2", vendor_id := 5, product_id := 6, description := some "Mouse",
    serial_number := some "SN77", base_class := .HumanInterfaceDevice }

/-- `devW1` with only its description changed. -/
def devW1d : UsbDevice :=
  { devW1 with description := some "PicoScope" }

/-- Counting an image point in the image of a duplicate-free filtered list:
one occurrence when the element is in the list and passes the filter,
zero otherwise. -/
theorem count_map_filter_mem (l : List UsbDevice) (hl : l.Nodup) (p : UsbDevice → Bool)
    (f : UsbDevice → Event) (hf : Function.Injective f) (d : UsbDevice) :
    ((l.filter p).map f).count (f d) = if d ∈ l ∧ p d = true then 1 else 0 := by
  rw [List.count_map_of_injective _ f hf]
  by_cases h : d ∈ l ∧ p d = true
  · rw [if_pos h]
    exact List.count_eq_one_of_mem (hl.filter p) (List.mem_filter.mpr ⟨h.1, h.2⟩)
  · rw [if_neg h]
    refine List.count_eq_zero.mpr ?_
    intro hmem
    rcases List.mem_filter.mp hmem with ⟨h1, h2⟩
    exact h ⟨h1, h2⟩

/-- C1: one tick of the worker loop, run over old set `A` and new set `B`
(duplicate-free lists standing for the two `HashSet`s), emits exactly one
`Disconnect d` for each `d ∈ A \ B`, exactly one `Connect d` for each
`d ∈ B \ A`, and nothing else; when `A` and `B` hold the same devices the
tick emits no events at all. -/
theorem subscribe_tick_diff_exact (A B : List UsbDevice) (hA : A.Nodup) (hB : B.Nodup) :
    (∀ d, (tickEvents A B).count (Event.Disconnect d) =
        if d ∈ A ∧ d ∉ B then 1 else 0) ∧
    (∀ d, (tickEvents A B).count (Event.Connect d) =
        if d ∈ B ∧ d ∉ A then 1 else 0) ∧
    (∀ e ∈ tickEvents A B,
        (∃ d, e = Event.Disconnect d ∧ d ∈ A ∧ d ∉ B) ∨
        (∃ d, e = Event.Connect d ∧ d ∈ B ∧ d ∉ A)) ∧
    ((∀ d, d ∈ A ↔ d ∈ B) → tickEvents A B = []) := by
  refine ⟨?_, ?_, ?_, ?_⟩
  · intro d
    rw [tickEvents, List.count_append]
    rw [count_map_filter_mem A hA _ _ (fun a b h => by injection h) d]
    have h2 : ((B.filter fun x => decide (x ∉ A)).map Event.Connect).count
        (Event.Disconnect d) = 0 := by
      refine List.count_eq_zero.mpr ?_
      simp
    rw [h2, Nat.add_zero]
    simp
  · intro d
    rw [tickEvents, List.count_append]
    rw [count_map_filter_mem B hB _ _ (fun a b h => by injection h) d]
    have h2 : ((A.filter fun x => decide (x ∉ B)).map Event.Disconnect).count
        (Event.Connect d) = 0 := by
      refine List.count_eq_zero.mpr ?_
      simp
    rw [h2, Nat.zero_add]
    simp
  · intro e he
    rw [tickEvents, List.mem_append] at he
    rcases he with h | h
    · left
      rcases List.mem_map.mp h with ⟨d, hd, rfl⟩
      rcases List.mem_filter.mp hd with ⟨h1, h2⟩
      exact ⟨d, rfl, h1, by simpa using h2⟩
    · right
      rcases List.mem_map.mp h with ⟨d, hd, rfl⟩
      rcases List.mem_filter.mp hd with ⟨h1, h2⟩
      exact ⟨d, rfl, h1, by simpa using h2⟩
  · intro h
    rw [tickEvents]
    have h1 : (A.filter fun d => decide (d ∉ B)) = [] :=
      List.filter_eq_nil_iff.mpr fun a ha => by simpa using (h a).mp ha
    have h2 : (B.filter fun d => decide (d ∉ A)) = [] :=
      List.filter_eq_nil_iff.mpr fun a ha => by simpa using (h a).mpr ha
    rw [h1, h2]
    rfl

/-- Witness for C1 at a concrete pair of populations: `devW1` disconnects,
`devW1d` connects, `devW2` is unchanged. -/
theorem subscribe_tick_diff_exact_witness :
    ([devW1, devW2] : List UsbDevice).Nodup ∧ ([devW2, devW1d] : List UsbDevice).Nodup ∧
    ((∀ d, (tickEvents [devW1, devW2] [devW2, devW1d]).count (Event.Disconnect d) =
        if d ∈ [devW1, devW2] ∧ d ∉ [devW2, devW1d] then 1 else 0) ∧
     (∀ d, (tickEvents [devW1, devW2] [devW2, devW1d]).count (Event.Connect d) =
        if d ∈ [devW2, devW1d] ∧ d ∉ [devW1, devW2] then 1 else 0) ∧
     (∀ e ∈ tickEvents [devW1, devW2] [devW2, devW1d],
        (∃ d, e = Event.Disconnect d ∧ d ∈ [devW1, devW2] ∧ d ∉ [devW2, devW1d]) ∨
        (∃ d, e = Event.Connect d ∧ d ∈ [devW2, devW1d] ∧ d ∉ [devW1, devW2])) ∧
     ((∀ d, d ∈ ([devW1, devW2] : List UsbDevice) ↔ d ∈ [devW2, devW1d]) →
        tickEvents [devW1, devW2] [devW2, devW1d] = [])) :=
  ⟨by decide, by decide,
   subscribe_tick_diff_exact [devW1, devW2] [devW2, devW1d] (by decide) (by decide)⟩

/-- Every event emitted inside the polling loop is a `Disconnect` or a
`Connect`, never an `Initial`. -/
theorem tickEvents_isInitial_false (old new : List UsbDevice) (e : Event)
    (he : e ∈ tickEvents old new) : e.isInitial = false := by
  rw [tickEvents, List.mem_append] at he
  rcases he with h | h <;> rcases List.mem_map.mp h with ⟨d, _, rfl⟩ <;> rfl

/-- The post-`Initial` part of the worker's stream contains no `Initial`
event. -/
theorem workerAfter_filter_isInitial (rest : List (List UsbDevice)) :
    ∀ old, (workerAfter old rest).filter Event.isInitial = [] := by
  induction rest with
  | nil => intro old; rfl
  | cons n rest ih =>
    intro old
    rw [workerAfter, List.filter_append, ih]
    rw [List.filter_eq_nil_iff.mpr fun e he => by
      simp [tickEvents_isInitial_false old n.dedup e he]]
    rfl

/-- C2: for any (non-cancelled) run of the worker, the stream starts with the
single `Initial` event carrying the first enumeration result, no other
`Initial` is ever sent, and a first enumeration that finds no devices still
produces `Initial []` first. -/
theorem subscribe_initial_exactly_once (first : List UsbDevice)
    (rest : List (List UsbDevice)) :
    (workerEvents (first :: rest)).head? = some (Event.Initial first) ∧
    ((workerEvents (first :: rest)).filter Event.isInitial).length = 1 ∧
    (workerEvents ([] :: rest)).head? = some (Event.Initial []) := by
  refine ⟨rfl, ?_, rfl⟩
  rw [workerEvents, List.filter_cons]
  simp [Event.isInitial, workerAfter_filter_isInitial]

/-- The per-tick segment view agrees with the flat event stream: the
post-`Initial` stream is the in-order concatenation of the tick segments. -/
theorem workerAfter_eq_join_tickSegments (rest : List (List UsbDevice)) :
    ∀ old, workerAfter old rest = (tickSegments old rest).flatten := by
  induction rest with
  | nil => intro old; rfl
  | cons n rest ih =>
    intro old
    rw [workerAfter, tickSegments, List.flatten_cons, ih]

/-- C3: within one tick every `Disconnect` precedes every `Connect` (the tick
is a block of `Disconnect`s followed by a block of `Connect`s), and the
stream after `Initial` is the concatenation of the tick segments in tick
order, so all events of tick `N` precede all events of tick `N + 1`. -/
theorem subscribe_event_order :
    (∀ old new : List UsbDevice, ∃ ds cs : List UsbDevice,
        tickEvents old new = ds.map Event.Disconnect ++ cs.map Event.Connect) ∧
    (∀ (first : List UsbDevice) (rest : List (List UsbDevice)),
        workerEvents (first :: rest) =
          Event.Initial first :: (tickSegments first.dedup rest).flatten) := by
  constructor
  · intro old new
    exact ⟨old.filter fun d => decide (d ∉ new), new.filter fun d => decide (d ∉ old), rfl⟩
  · intro first rest
    rw [workerEvents, workerAfter_eq_join_tickSegments]

/-- C4 counterexample: with `poll_interval = 0` the wait loop body never runs,
so a tick performs zero cancellation checks; even with the `Subscription`
already dropped the worker still enumerates and still emits a `Connect`. -/
theorem drop_cancellation_zero_interval_cex :
    (waitLoop true 0).1 = 0 ∧
    runTick true 0 [] [devW1] ≠ TickOutcome.terminated ∧
    runTick true 0 [] [devW1] = TickOutcome.emitted [Event.Connect devW1] [devW1] := by
  refine ⟨rfl, by decide, by decide⟩

/-- C4 (amended): for every positive poll interval, once the `Subscription`
is dropped the wait loop observes the disconnect at its very first
`recv_timeout` check — one sleep increment, independent of the interval —
and the worker terminates without enumerating or emitting anything. -/
theorem drop_cancellation_bounded (interval : Nat) (old newEnum : List UsbDevice)
    (h : 0 < interval) :
    waitLoop true interval = (1, true) ∧
    runTick true interval old newEnum = TickOutcome.terminated := by
  rcases interval with _ | n
  · exact absurd h (by decide)
  · exact ⟨rfl, by rw [runTick]; rfl⟩

/-- Witness for C4's amended statement at the spec's own example interval of
3600 seconds. -/
theorem drop_cancellation_bounded_witness :
    0 < 3600 ∧
    (waitLoop true 3600 = (1, true) ∧
     runTick true 3600 [devW1] [devW1] = TickOutcome.terminated) :=
  ⟨by decide, drop_cancellation_bounded 3600 [devW1] [devW1] (by decide)⟩

/-- C5 counterexample: `Observer::new` takes the poll interval as an argument
and stores it verbatim; `Observer::new(2)` has interval 2, not the claimed
default of 1 second. -/
theorem observer_new_default_cex :
    (Observer.new 2).poll_interval = 2 ∧ (Observer.new 2).poll_interval ≠ 1 := by
  decide

/-- C5 (amended): `Observer::new(poll_interval)` returns the configuration
with exactly the caller-supplied poll interval and with no vendor and no
product filter. -/
theorem observer_new_spec (i : Nat) :
    (Observer.new i).poll_interval = i ∧
    (Observer.new i).vendor_id = none ∧
    (Observer.new i).product_id = none :=
  ⟨rfl, rfl, rfl⟩

/-- C6: with only a vendor filter the observer's enumeration returns exactly
the devices with that vendor id; with both filters it returns exactly the
devices matching both; and when nothing matches the result is the empty
list, not an error. -/
theorem observer_enumerate_filters (i V P : Nat) (devices : List UsbDevice) :
    ((Observer.new i).with_vendor_id V).enumerate devices =
      devices.filter (fun d => d.vendor_id == V) ∧
    (((Observer.new i).with_vendor_id V).with_product_id P).enumerate devices =
      devices.filter (fun d => d.vendor_id == V && d.product_id == P) ∧
    ((∀ d ∈ devices, ¬(d.vendor_id = V ∧ d.product_id = P)) →
      (((Observer.new i).with_vendor_id V).with_product_id P).enumerate devices = []) := by
  have h1 : ((Observer.new i).with_vendor_id V).enumerate devices =
      devices.filter (fun d => d.vendor_id == V) := rfl
  have h2 : (((Observer.new i).with_vendor_id V).with_product_id P).enumerate devices =
      devices.filter (fun d => d.vendor_id == V && d.product_id == P) := by
    show withProductId (withVendorId devices V) P = _
    rw [withProductId, withVendorId, List.filter_filter]
    exact List.filter_congr fun d _ => by rw [Bool.and_comm]
  refine ⟨h1, h2, ?_⟩
  intro hnone
  rw [h2]
  refine List.filter_eq_nil_iff.mpr fun d hd => ?_
  have := hnone d hd
  simp only [Bool.and_eq_true, beq_iff_eq]
  intro hc
  exact this ⟨hc.1, hc.2⟩

/-- Witness for C6 at a concrete device list on which nothing matches both
filters. -/
theorem observer_enumerate_filters_witness :
    (∀ d ∈ [devW1, devW2], ¬(d.vendor_id = 5 ∧ d.product_id = 7)) ∧
    (((Observer.new 1).with_vendor_id 5).with_product_id 7).enumerate [devW1, devW2] = [] :=
  ⟨by decide, (observer_enumerate_filters 1 5 7 [devW1, devW2]).2.2 (by decide)⟩

/-- C7: equality of `UsbDevice` is structural over all six fields, and as a
consequence the differ treats a device whose description alone changed as a
disconnect of the old value followed by a connect of the new value. -/
theorem usbdevice_structural_eq :
    (∀ d1 d2 : UsbDevice, d1 = d2 ↔
        (d1.id = d2.id ∧ d1.vendor_id = d2.vendor_id ∧ d1.product_id = d2.product_id ∧
         d1.description = d2.description ∧ d1.serial_number = d2.serial_number ∧
         d1.base_class = d2.base_class)) ∧
    (devW1d.id = devW1.id ∧ devW1d.vendor_id = devW1.vendor_id ∧
     devW1d.product_id = devW1.product_id ∧ devW1d.description ≠ devW1.description) ∧
    tickEvents [devW1] [devW1d] = [Event.Disconnect devW1, Event.Connect devW1d] := by
  refine ⟨?_, by decide, by decide⟩
  intro d1 d2
  cases d1
  cases d2
  simp [UsbDevice.mk.injEq]

set_option maxRecDepth 8192 in
/-- C8: converting a raw byte to `DeviceBaseClass` succeeds exactly on the
class codes listed in the enum, every successful conversion lands on the
variant carrying that discriminant, and unlisted bytes such as `0x04` and
`0x0C` are rejected rather than coerced. -/
theorem devicebaseclass_tryfrom_exact :
    (∀ n : Fin 256,
        (DeviceBaseClass.tryFromPrimitive n).isSome = true ↔ n.val ∈ knownClassCodes) ∧
    (∀ n : Fin 256, ∀ c : DeviceBaseClass,
        DeviceBaseClass.tryFromPrimitive n = some c → c.discriminant = n.val) ∧
    (∀ c : DeviceBaseClass, c.discriminant ∈ knownClassCodes) ∧
    DeviceBaseClass.tryFromPrimitive 0x04 = none ∧
    DeviceBaseClass.tryFromPrimitive 0x0C = none := by
  refine ⟨by decide, by decide, by intro c; cases c <;> decide, rfl, rfl⟩

/-- A udev record that parses cleanly with no filters. -/
def udevGood : UdevDevice :=
  { id_vendor_id := some (some "0ce9"), id_model_id := some (some "1220"),
    devpath := some (some "/devices/usb1"),
    id_model_from_database := some (some "PicoScope"), id_model := none,
    id_serial_short := some (some "SER123") }

/-- A second cleanly parsing udev record. -/
def udevGood2 : UdevDevice :=
  { id_vendor_id := some (some "046d"), id_model_id := some (some "c52b"),
    devpath := some (some "/devices/usb2"), id_model_from_database := none,
    id_model := some (some "Receiver"), id_serial_short := some (some "SER456") }

/-- A udev record whose `ID_MODEL_ID` property is missing. -/
def udevMissingModel : UdevDevice :=
  { id_vendor_id := some (some "046d"), id_model_id := none,
    devpath := some (some "/devices/usb3"), id_model_from_database := none,
    id_model := none, id_serial_short := some (some "S3") }

/-- A udev record whose `ID_VENDOR_ID` property is present but not UTF-8. -/
def udevBadUtf8 : UdevDevice :=
  { id_vendor_id := some none, id_model_id := some (some "1220"),
    devpath := some (some "/devices/usb4"), id_model_from_database := none,
    id_model := none, id_serial_short := some (some "S4") }

/-- A udev record whose `ID_VENDOR_ID` value is not valid hexadecimal. -/
def udevBadHex : UdevDevice :=
  { id_vendor_id := some (some "zz"), id_model_id := some (some "1220"),
    devpath := some (some "/devices/usb5"), id_model_from_database := none,
    id_model := none, id_serial_short := some (some "S5") }

/-- A udev record identical to `udevGood2` except that `ID_SERIAL_SHORT` is
absent. -/
def udevNoSerial : UdevDevice :=
  { id_vendor_id := some (some "046d"), id_model_id := some (some "c52b"),
    devpath := some (some "/devices/usb6"), id_model_from_database := none,
    id_model := some (some "Receiver"), id_serial_short := none }

/-- The device pushed for `udevGood`. -/
def uGood : LinuxUsbDevice :=
  { id := "/devices/usb1", vendor_id := 0x0ce9, product_id := 0x1220,
    description := some "PicoScope", serial_number := some "SER123" }

/-- Inversion for a successful parse: the record's `ID_SERIAL_SHORT` was
present and valid, and the pushed device stores it under `some`. -/
theorem parseDevice_serial (vid pid : Option Nat) (dev : UdevDevice) (u : LinuxUsbDevice)
    (h : parseDevice vid pid dev = some u) :
    ∃ s, dev.id_serial_short = some (some s) ∧ u.serial_number = some s := by
  unfold parseDevice at h
  rw [Option.bind_eq_some] at h
  obtain ⟨vs, hvs, h⟩ := h
  rw [Option.bind_eq_some] at h
  obtain ⟨vendor, hven, h⟩ := h
  split at h
  · rw [Option.bind_eq_some] at h
    obtain ⟨ms, hms, h⟩ := h
    rw [Option.bind_eq_some] at h
    obtain ⟨product, hprod, h⟩ := h
    split at h
    · rw [Option.bind_eq_some] at h
      obtain ⟨devid, hdev, h⟩ := h
      rw [Option.bind_eq_some] at h
      obtain ⟨serial, hser, h⟩ := h
      refine ⟨serial, ?_, ?_⟩
      · rcases hx : dev.id_serial_short with _ | sv
        · rw [hx] at hser
          exact Option.noConfusion hser
        · rcases sv with _ | s
          · rw [hx] at hser
            exact Option.noConfusion hser
          · rw [hx] at hser
            have hs : s = serial := Option.some.inj hser
            rw [hs]
      · have hu : _ = u := Option.some.inj h
        rw [← hu]
    · exact Option.noConfusion h
  · exact Option.noConfusion h

/-- C9: a udev record whose properties fail to parse (missing property,
non-UTF-8 value, or malformed hex ID) is dropped on its own: enumerating a
list with the bad record gives exactly the enumeration of the list without
it, and the three concrete failure modes all make the per-device closure
push nothing. -/
theorem enumerate_platform_skips_bad (vid pid : Option Nat)
    (pre post : List UdevDevice) (dev : UdevDevice)
    (h : parseDevice vid pid dev = none) :
    enumerate_platform vid pid (pre ++ dev :: post) =
      enumerate_platform vid pid (pre ++ post) ∧
    parseDevice none none udevMissingModel = none ∧
    parseDevice none none udevBadUtf8 = none ∧
    parseDevice none none udevBadHex = none := by
  refine ⟨?_, by decide, by decide, by decide⟩
  rw [enumerate_platform, enumerate_platform, List.filterMap_append,
    List.filterMap_append, List.filterMap_cons_none h]

/-- Witness for C9: the malformed-hex record sits between two good records
and only it is dropped. -/
theorem enumerate_platform_skips_bad_witness :
    parseDevice none none udevBadHex = none ∧
    enumerate_platform none none ([udevGood] ++ udevBadHex :: [udevGood2]) =
      enumerate_platform none none ([udevGood] ++ [udevGood2]) :=
  ⟨by decide,
   (enumerate_platform_skips_bad none none [udevGood] [udevGood2] udevBadHex (by decide)).1⟩

/-- C10: on the Linux backend a record with no `ID_SERIAL_SHORT` property is
not returned at all, and every device that is returned carries
`serial_number = Some(..)`. -/
theorem linux_serial_always_some :
    (∀ (vid pid : Option Nat) (dev : UdevDevice),
        dev.id_serial_short = none → parseDevice vid pid dev = none) ∧
    (∀ (vid pid : Option Nat) (devs : List UdevDevice) (u : LinuxUsbDevice),
        u ∈ enumerate_platform vid pid devs → u.serial_number.isSome = true) := by
  constructor
  · intro vid pid dev hs
    cases hp : parseDevice vid pid dev with
    | none => rfl
    | some u =>
      obtain ⟨s, hs2, _⟩ := parseDevice_serial vid pid dev u hp
      rw [hs] at hs2
      exact Option.noConfusion hs2
  · intro vid pid devs u hu
    obtain ⟨dev, _, hp⟩ := List.mem_filterMap.mp hu
    obtain ⟨s, _, h2⟩ := parseDevice_serial vid pid dev u hp
    rw [h2]
    rfl

/-- Witness for C10: the serial-less record parses to nothing, and the one
device returned for `[udevGood]` has a `Some` serial number. -/
theorem linux_serial_always_some_witness :
    udevNoSerial.id_serial_short = none ∧
    parseDevice (some 0x046d) none udevNoSerial = none ∧
    uGood ∈ enumerate_platform none none [udevGood] ∧
    uGood.serial_number.isSome = true :=
  ⟨rfl, linux_serial_always_some.1 (some 0x046d) none udevNoSerial rfl,
   by decide, linux_serial_always_some.2 none none [udevGood] uGood (by decide)⟩
